import Mathlib

/-!
Formalization of the routing and provider-fallback layer of the
Multi-Model-Bot service (src/main.py): the keyword router
`determine_adapter`, the text adapter `GroqAdapter.generate`, the image
adapter `GeminiImageAdapter.generate` with its two-tier fallback, and the
`chat` endpoint's error translation.

Results returned by adapters are modelled as JSON-style dictionaries
(association lists from string keys to string values), exactly mirroring
the Python dict literals in the source. Network effects are modelled by
passing the outcome of each outbound call as an explicit parameter, and
the module-level credentials GROQ_API_KEY / GEMINI_API_KEY as booleans
recording whether the key is non-empty.
-/

namespace MultiModelBot

/-- Does `needle` match `hay` character by character at the head of `hay`? -/
def headMatch : List Char → List Char → Bool
  | [], _ => true
  | _ :: _, [] => false
  | a :: as, b :: bs => a == b && headMatch as bs

/-- Substring containment on character lists: `needle` occurs contiguously
somewhere in `hay`. -/
def hasSub (needle : List Char) : List Char → Bool
  | [] => headMatch needle []
  | c :: t => headMatch needle (c :: t) || hasSub needle t

/-- Embedding of the Python membership test `needle in hay` on strings
(substring containment). -/
def pyIn (needle hay : String) : Bool := hasSub needle.data hay.data

/-- Embedding of Python `str.lower()` (character-wise lowercasing; the
prompts and keywords involved are ASCII). -/
def pyLower (s : String) : String := ⟨s.data.map Char.toLower⟩

/-- Embedding of Python `s.replace(' ', '%20')` on character lists: each
space character becomes the three characters `%20`; every other character
is kept unchanged. -/
def replaceSpaces : List Char → List Char
  | [] => []
  | c :: cs =>
    if c = ' ' then '%' :: '2' :: '0' :: replaceSpaces cs
    else c :: replaceSpaces cs

/-- Embedding of Python `s.replace(' ', '%20')` on strings. -/
def pyReplaceSpace (s : String) : String := ⟨replaceSpaces s.data⟩

/-- The two adapter singletons of the source, GROQ_ADAPTER (text) and
GEMINI_ADAPTER (image). -/
inductive Adapter
  | groq
  | gemini
  deriving DecidableEq, Repr

/-- The model name of each adapter (src/main.py lines 81 and 95). -/
def adapterName : Adapter → String
  | Adapter.groq => "llama-3.3-70b-versatile"
  | Adapter.gemini => "imagen-3.0-generate-001"

/-- IMAGE_KEYWORDS (src/main.py lines 119-123). The source is a Python
set iterated only for an any-match test whose result does not depend on
iteration order, so a list is a faithful model. -/
def IMAGE_KEYWORDS : List String :=
  ["image", "generate", "draw", "create", "illustrate", "picture",
   "logo", "avatar", "portrait", "scene", "render", "paint", "sketch",
   "photo", "photograph", "visual", "graphic", "design", "cinematic", "4k"]

/-- determine_adapter (src/main.py lines 125-143). `mode_hint` is the
request's `mode` field, an Optional[str] defaulting to "auto"; `none`
models Python None. Hint checks come first; then a prompt containing
"code" or "function" (as a substring of the lowercased prompt) forces the
text adapter; then any image keyword selects the image adapter; the
default is the text adapter. -/
def determine_adapter (prompt : String) (mode_hint : Option String) : Adapter :=
  if mode_hint = some "image" then Adapter.gemini
  else if mode_hint = some "text" then Adapter.groq
  else
    let prompt_lower := pyLower prompt
    if pyIn "code" prompt_lower || pyIn "function" prompt_lower then Adapter.groq
    else if IMAGE_KEYWORDS.any (fun word => pyIn word prompt_lower) then Adapter.gemini
    else Adapter.groq

/-- A Python dict with string keys and string values, as returned by the
adapters' generate methods. -/
abbrev ResultDict := List (String × String)

/-- Embedding of Python `d.get(k)`: the value at key `k`, if present. -/
def dictGet (d : ResultDict) (k : String) : Option String := List.lookup k d

/-- A Python exception raised by the text path: either the explicit
`RuntimeError("GROQ_API_KEY missing")` or an exception escaping the
upstream Groq SDK call. -/
inductive PyError
  | runtimeError (msg : String)
  | upstream (msg : String)
  deriving DecidableEq, Repr

/-- Embedding of Python `str(e)` for the exceptions above. -/
def PyError.str : PyError → String
  | PyError.runtimeError m => m
  | PyError.upstream m => m

/-- Outcome of the (offloaded) upstream Groq chat-completion call: either
the returned message content, or an exception with its message. -/
inductive UpstreamOutcome
  | ok (text : String)
  | raise (msg : String)
  deriving DecidableEq, Repr

/-- GroqAdapter.generate (src/main.py lines 85-92). `keyPresent` models
whether GROQ_API_KEY is non-empty (so `self.client` is not None);
`upstream` models the outcome of the network call. With no client it
raises `RuntimeError("GROQ_API_KEY missing")` without consulting the
network; otherwise an upstream exception propagates unchanged and a
successful call yields the dict with keys "text" and "type". -/
def GroqAdapter.generate (keyPresent : Bool) (upstream : UpstreamOutcome)
    (_prompt : String) : Except PyError ResultDict :=
  if !keyPresent then Except.error (PyError.runtimeError "GROQ_API_KEY missing")
  else
    match upstream with
    | UpstreamOutcome.ok t => Except.ok [("text", t), ("type", "text")]
    | UpstreamOutcome.raise m => Except.error (PyError.upstream m)

/-- Outcome of the primary-tier HTTP POST to the Gemini predict endpoint:
a response with a status code and, when the body parses to
`predictions[0].bytesBase64Encoded`, that base64 payload (`none` models a
body whose JSON access raises); or `exn` for an exception or timeout
during the request itself. -/
inductive HttpAttempt
  | response (status : Nat) (b64Body : Option String)
  | exn
  deriving DecidableEq, Repr

/-- The tier-2 fallback dict (src/main.py line 113): the pollinations.ai
URL built from the prompt with spaces replaced by %20; keys "image_url"
and "type" only. -/
def fallbackResult (prompt : String) : ResultDict :=
  [("image_url", "https://image.pollinations.ai/prompt/" ++ pyReplaceSpace prompt),
   ("type", "image")]

/-- GeminiImageAdapter.generate (src/main.py lines 98-113). If
GEMINI_API_KEY is non-empty, the primary tier is attempted: only a
200-status response whose body yields the base64 payload produces the
data-URI result; a non-200 status falls through, and an exception during
the request or body access is swallowed by `except: pass`. Every other
path returns the fallback dict. -/
def GeminiImageAdapter.generate (keyPresent : Bool) (attempt : HttpAttempt)
    (prompt : String) : ResultDict :=
  if keyPresent then
    match attempt with
    | HttpAttempt.response status b64Body =>
        if status = 200 then
          match b64Body with
          | some b64 => [("image_url", "data:image/png;base64," ++ b64), ("type", "image")]
          | none => fallbackResult prompt
        else fallbackResult prompt
    | HttpAttempt.exn => fallbackResult prompt
  else fallbackResult prompt

/-- The primary tier succeeds exactly when the credential is present and
the POST returned status 200 with a parseable base64 body. -/
def isPrimarySuccess (keyPresent : Bool) (attempt : HttpAttempt) : Bool :=
  keyPresent &&
    match attempt with
    | HttpAttempt.response status (some _) => status == 200
    | _ => false

/-- The environment of one /chat request: which credentials are set and
what each provider call would return. -/
structure World where
  groqKey : Bool
  geminiKey : Bool
  groqUpstream : UpstreamOutcome
  geminiAttempt : HttpAttempt

/-- Dispatch of `adapter.generate(req.prompt)` for the adapter chosen by
the router (src/main.py lines 176-180). The image adapter never raises,
so its result is always `Except.ok`. -/
def adapterGenerate (w : World) : Adapter → String → Except PyError ResultDict
  | Adapter.groq, p => GroqAdapter.generate w.groqKey w.groqUpstream p
  | Adapter.gemini, p =>
      Except.ok (GeminiImageAdapter.generate w.geminiKey w.geminiAttempt p)

/-- The HTTP-level response of the /chat endpoint: the JSON body with
"output" and "model", or an HTTPException with status and detail. -/
inductive ChatResponse
  | ok (output : ResultDict) (model : String)
  | httpError (status : Nat) (detail : String)
  deriving DecidableEq, Repr

/-- The /chat endpoint (src/main.py lines 173-195), restricted to its
generation logic: route with determine_adapter, generate, and translate
any exception into `HTTPException(500, str(e))`. (The database write is
orthogonal to the claims and omitted.) -/
def chat (w : World) (prompt : String) (mode : Option String) : ChatResponse :=
  let adapter := determine_adapter prompt mode
  match adapterGenerate w adapter prompt with
  | Except.ok out => ChatResponse.ok out (adapterName adapter)
  | Except.error e => ChatResponse.httpError 500 e.str

/-- Per-character effect of `replace(' ', '%20')`: a space becomes the
three characters of "%20", every other character maps to itself. -/
def escChar (c : Char) : List Char :=
  if c = ' ' then ['%', '2', '0'] else [c]

/-! ## Helper lemmas about the image adapter's case structure -/

/-- With no credential the primary tier is skipped entirely and the
fallback dict is returned, whatever the network would have answered. -/
theorem gemini_nokey (a : HttpAttempt) (p : String) :
    GeminiImageAdapter.generate false a p = fallbackResult p := rfl

/-- An exception or timeout during the primary POST is swallowed and the
fallback dict is returned. -/
theorem gemini_exn (p : String) :
    GeminiImageAdapter.generate true HttpAttempt.exn p = fallbackResult p := rfl

/-- A 200 response whose body access raises is swallowed and the fallback
dict is returned. -/
theorem gemini_parsefail (p : String) :
    GeminiImageAdapter.generate true (HttpAttempt.response 200 none) p = fallbackResult p := rfl

/-- A non-200 status falls through to the fallback dict. -/
theorem gemini_not200 (s : Nat) (hs : s ≠ 200) (b : Option String) (p : String) :
    GeminiImageAdapter.generate true (HttpAttempt.response s b) p = fallbackResult p := by
  unfold GeminiImageAdapter.generate
  simp [hs]

/-- A 200 response with a parseable base64 body yields the data-URI dict. -/
theorem gemini_success (b64 p : String) :
    GeminiImageAdapter.generate true (HttpAttempt.response 200 (some b64)) p =
      [("image_url", "data:image/png;base64," ++ b64), ("type", "image")] := rfl

/-- Unless the primary tier succeeds (credential present, status 200,
parseable body), the image adapter returns the fallback dict. -/
theorem gemini_fallback_of_not_success (k : Bool) (a : HttpAttempt) (p : String)
    (h : isPrimarySuccess k a = false) :
    GeminiImageAdapter.generate k a p = fallbackResult p := by
  cases k with
  | false => exact gemini_nokey a p
  | true =>
      cases a with
      | exn => exact gemini_exn p
      | response s b =>
          cases b with
          | none =>
              by_cases hs : s = 200
              · subst hs; exact gemini_parsefail p
              · exact gemini_not200 s hs none p
          | some b64 =>
              by_cases hs : s = 200
              · subst hs
                exfalso
                simp [isPrimarySuccess] at h
              · exact gemini_not200 s hs (some b64) p

/-- The image adapter's result always carries `type = "image"` and a
populated `image_url`, and never carries a `note` or `text` key. -/
theorem gemini_result_shape (k : Bool) (a : HttpAttempt) (p : String) :
    dictGet (GeminiImageAdapter.generate k a p) "type" = some "image" ∧
    (dictGet (GeminiImageAdapter.generate k a p) "image_url").isSome = true ∧
    dictGet (GeminiImageAdapter.generate k a p) "note" = none ∧
    dictGet (GeminiImageAdapter.generate k a p) "text" = none := by
  by_cases h : isPrimarySuccess k a = true
  · have hk : k = true := by
      cases k
      · simp [isPrimarySuccess] at h
      · rfl
    subst hk
    match a, h with
    | HttpAttempt.response s (some b64), h =>
        have hs : s = 200 := by
          simpa [isPrimarySuccess] using h
        subst hs
        rw [gemini_success]
        exact ⟨rfl, rfl, rfl, rfl⟩
  · rw [gemini_fallback_of_not_success k a p (by simpa using h)]
    exact ⟨rfl, rfl, rfl, rfl⟩

/-- Each character is mapped independently by `replace(' ', '%20')`:
the whole output is the concatenation of the per-character images. -/
theorem replaceSpaces_eq_bind (l : List Char) :
    replaceSpaces l = l.flatMap escChar := by
  induction l with
  | nil => rfl
  | cons c cs ih =>
      by_cases hc : c = ' '
      · simp [replaceSpaces, escChar, hc, ih]
      · simp [replaceSpaces, escChar, hc, ih]

/-! ## Claim theorems -/

/-- C1: the image adapter's generate is total: for every credential
state, primary-tier outcome (exception, timeout, any status, any body)
and prompt it returns a well-formed image dict, and any failure or skip
of the primary tier leads unconditionally to the fallback dict. -/
theorem image_generate_total_c1 :
    ∀ (k : Bool) (a : HttpAttempt) (p : String),
      dictGet (GeminiImageAdapter.generate k a p) "type" = some "image" ∧
      (dictGet (GeminiImageAdapter.generate k a p) "image_url").isSome = true ∧
      (isPrimarySuccess k a = false →
        GeminiImageAdapter.generate k a p = fallbackResult p) := by
  intro k a p
  obtain ⟨ht, hu, -, -⟩ := gemini_result_shape k a p
  exact ⟨ht, hu, fun h => gemini_fallback_of_not_success k a p h⟩

/-- C1 witness: a 403 from the primary tier yields the fallback dict,
still a well-formed image result. -/
theorem image_generate_total_c1_witness :
    dictGet (GeminiImageAdapter.generate true (HttpAttempt.response 403 none) "x") "type"
        = some "image" ∧
    GeminiImageAdapter.generate true (HttpAttempt.response 403 none) "x"
        = fallbackResult "x" :=
  ⟨(image_generate_total_c1 true (HttpAttempt.response 403 none) "x").1,
   (image_generate_total_c1 true (HttpAttempt.response 403 none) "x").2.2 rfl⟩

/-- C2 counterexample: with no credential the fallback tier is taken, yet
the returned dict has no "note" key at all — in particular its value is
not "fallback used", contradicting the claim that fallback use is always
observable through `note`. -/
theorem fallback_note_c2_counterexample :
    GeminiImageAdapter.generate false HttpAttempt.exn "a cat" = fallbackResult "a cat" ∧
    dictGet (GeminiImageAdapter.generate false HttpAttempt.exn "a cat") "note" = none ∧
    dictGet (GeminiImageAdapter.generate false HttpAttempt.exn "a cat") "note"
      ≠ some "fallback used" := by
  refine ⟨rfl, rfl, ?_⟩
  intro h
  simp [dictGet, fallbackResult, GeminiImageAdapter.generate, List.lookup] at h

/-- C2 amended: the image adapter's result never carries a "note" key —
neither on the primary path nor on the fallback path — so the caller
cannot observe from the result's note field whether fallback happened. -/
theorem fallback_note_c2_amended :
    ∀ (k : Bool) (a : HttpAttempt) (p : String),
      dictGet (GeminiImageAdapter.generate k a p) "note" = none := by
  intro k a p
  exact (gemini_result_shape k a p).2.2.1

/-- C3 counterexample: the prompt "image of code" contains the code
keyword "code" and the literal substring "image", yet the router under
mode auto selects the text adapter, not the image adapter. -/
theorem code_image_priority_c3_counterexample :
    determine_adapter "image of code" (some "auto") = Adapter.groq ∧
    Adapter.groq ≠ Adapter.gemini := by
  exact ⟨by decide, by decide⟩

/-- C3 amended: a prompt containing a code keyword as a substring routes
to the text adapter under mode auto even when the literal substring
"image" is also present — code intent has unconditional priority. -/
theorem code_image_priority_c3_amended :
    ∀ p : String,
      (pyIn "code" (pyLower p) = true ∨ pyIn "function" (pyLower p) = true) →
      pyIn "image" (pyLower p) = true →
      determine_adapter p (some "auto") = Adapter.groq := by
  intro p h _him
  unfold determine_adapter
  rw [if_neg (by decide : ¬ (some "auto" : Option String) = some "image"),
      if_neg (by decide : ¬ (some "auto" : Option String) = some "text"),
      if_pos (by rcases h with h | h <;> simp [h])]

/-- C3 amended witness: "write code with an image" contains both "code"
and "image" and routes to the text adapter. -/
theorem code_image_priority_c3_witness :
    determine_adapter "write code with an image" (some "auto") = Adapter.groq :=
  code_image_priority_c3_amended "write code with an image"
    (Or.inl (by decide)) (by decide)

/-- C4: with no credential the text adapter raises the configuration
error without consulting the network (the result is the same whatever the
upstream call would have returned); and when the upstream call raises,
the /chat endpoint surfaces the upstream message unmodified as an HTTP
500 error — no retry, no fallback to the image adapter. -/
theorem text_failfast_propagate_c4 :
    (∀ (u : UpstreamOutcome) (p : String),
        GroqAdapter.generate false u p =
          Except.error (PyError.runtimeError "GROQ_API_KEY missing")) ∧
    (∀ (w : World) (p : String) (m : Option String) (msg : String),
        determine_adapter p m = Adapter.groq →
        w.groqKey = true →
        w.groqUpstream = UpstreamOutcome.raise msg →
        chat w p m = ChatResponse.httpError 500 msg) := by
  constructor
  · intro u p
    rfl
  · intro w p m msg hroute hkey hup
    simp only [chat, hroute, adapterGenerate, hkey, hup, GroqAdapter.generate,
      Bool.not_true, Bool.false_eq_true, if_false, PyError.str]

/-- C4 witness: with no key the config error is raised even when the
upstream would have answered; with a key and a raising upstream, /chat
returns HTTP 500 carrying the upstream message. -/
theorem text_failfast_propagate_c4_witness :
    GroqAdapter.generate false (UpstreamOutcome.ok "hi") "p" =
      Except.error (PyError.runtimeError "GROQ_API_KEY missing") ∧
    chat ⟨true, false, UpstreamOutcome.raise "rate limit", HttpAttempt.exn⟩
        "hello" (some "text") = ChatResponse.httpError 500 "rate limit" :=
  ⟨text_failfast_propagate_c4.1 (UpstreamOutcome.ok "hi") "p",
   text_failfast_propagate_c4.2
     ⟨true, false, UpstreamOutcome.raise "rate limit", HttpAttempt.exn⟩
     "hello" (some "text") "rate limit" (by decide) rfl rfl⟩

/-- C5: an explicit mode hint always wins: for every prompt, hint "image"
selects the image adapter and hint "text" selects the text adapter,
whatever the prompt contains. -/
theorem mode_hint_overrides_c5 :
    ∀ p : String,
      determine_adapter p (some "image") = Adapter.gemini ∧
      determine_adapter p (some "text") = Adapter.groq := by
  intro p
  exact ⟨rfl, rfl⟩

/-- C6: a prompt containing a code keyword ("code" or "function") as a
substring and not containing "image" routes to the text adapter under
mode auto, even when image keywords are present. -/
theorem code_priority_c6 :
    ∀ p : String,
      (pyIn "code" (pyLower p) = true ∨ pyIn "function" (pyLower p) = true) →
      pyIn "image" (pyLower p) = false →
      determine_adapter p (some "auto") = Adapter.groq := by
  intro p h _him
  unfold determine_adapter
  rw [if_neg (by decide : ¬ (some "auto" : Option String) = some "image"),
      if_neg (by decide : ¬ (some "auto" : Option String) = some "text"),
      if_pos (by rcases h with h | h <;> simp [h])]

/-- C6 witness: "draw me some code" contains the image keyword "draw" and
the code keyword "code", no literal "image", and routes to the text
adapter. -/
theorem code_priority_c6_witness :
    determine_adapter "draw me some code" (some "auto") = Adapter.groq :=
  code_priority_c6 "draw me some code" (Or.inl (by decide)) (by decide)

/-- C7: routing is total and pure: for every prompt and mode hint it
returns exactly one of the two adapters and never fails, and a second
call with the same inputs returns the identical decision. -/
theorem router_total_pure_c7 :
    ∀ (p : String) (m : Option String),
      (determine_adapter p m = Adapter.groq ∨ determine_adapter p m = Adapter.gemini) ∧
      (∀ (q : String) (n : Option String), q = p → n = m →
        determine_adapter q n = determine_adapter p m) := by
  intro p m
  constructor
  · cases h : determine_adapter p m with
    | groq => exact Or.inl rfl
    | gemini => exact Or.inr rfl
  · intro q n hq hn
    rw [hq, hn]

/-- C7 witness: the decision at a concrete input is one of the two
adapters and is reproducible. -/
theorem router_total_pure_c7_witness :
    (determine_adapter "hello" (some "auto") = Adapter.groq ∨
      determine_adapter "hello" (some "auto") = Adapter.gemini) ∧
    determine_adapter "hello" (some "auto") = determine_adapter "hello" (some "auto") :=
  ⟨(router_total_pure_c7 "hello" (some "auto")).1,
   (router_total_pure_c7 "hello" (some "auto")).2 "hello" (some "auto") rfl rfl⟩

/-- C8: each adapter's successful result matches its declared category:
the text adapter's dict carries type "text" with a populated "text" key
and no "image_url"; the image adapter's dict — on the primary path and
on the fallback path alike — carries type "image" with a populated
"image_url" and no "text". -/
theorem adapter_variant_c8 :
    (∀ (k : Bool) (u : UpstreamOutcome) (p : String) (r : ResultDict),
        GroqAdapter.generate k u p = Except.ok r →
        dictGet r "type" = some "text" ∧ (dictGet r "text").isSome = true ∧
        dictGet r "image_url" = none) ∧
    (∀ (k : Bool) (a : HttpAttempt) (p : String),
        dictGet (GeminiImageAdapter.generate k a p) "type" = some "image" ∧
        (dictGet (GeminiImageAdapter.generate k a p) "image_url").isSome = true ∧
        dictGet (GeminiImageAdapter.generate k a p) "text" = none) := by
  constructor
  · intro k u p r h
    cases k with
    | false => exact absurd h (by simp [GroqAdapter.generate])
    | true =>
        cases u with
        | ok t =>
            have hr : r = [("text", t), ("type", "text")] := by
              simpa [GroqAdapter.generate] using h.symm
            subst hr
            exact ⟨rfl, rfl, rfl⟩
        | raise m => exact absurd h (by simp [GroqAdapter.generate])
  · intro k a p
    obtain ⟨ht, hu, -, hx⟩ := gemini_result_shape k a p
    exact ⟨ht, hu, hx⟩

/-- C8 witness: a successful text call yields a text-variant dict, and a
skipped-primary image call yields an image-variant dict. -/
theorem adapter_variant_c8_witness :
    (dictGet [("text", "hi"), ("type", "text")] "type" = some "text" ∧
      (dictGet [("text", "hi"), ("type", "text")] "text").isSome = true ∧
      dictGet [("text", "hi"), ("type", "text")] "image_url" = none) ∧
    (dictGet (GeminiImageAdapter.generate false HttpAttempt.exn "cat") "type" = some "image" ∧
      (dictGet (GeminiImageAdapter.generate false HttpAttempt.exn "cat") "image_url").isSome = true ∧
      dictGet (GeminiImageAdapter.generate false HttpAttempt.exn "cat") "text" = none) :=
  ⟨adapter_variant_c8.1 true (UpstreamOutcome.ok "hi") "p"
     [("text", "hi"), ("type", "text")] rfl,
   adapter_variant_c8.2 false HttpAttempt.exn "cat"⟩

/-- C9: whenever the fallback tier is taken, the returned image_url is
exactly the pollinations.ai base followed by the prompt transformed
character by character: each space becomes "%20" and every other
character is kept verbatim — no other escaping happens. -/
theorem fallback_url_escape_c9 :
    ∀ (k : Bool) (a : HttpAttempt) (p : String),
      isPrimarySuccess k a = false →
      dictGet (GeminiImageAdapter.generate k a p) "image_url" =
        some ("https://image.pollinations.ai/prompt/" ++
          String.mk (p.data.flatMap escChar)) := by
  intro k a p h
  rw [gemini_fallback_of_not_success k a p h]
  show some ("https://image.pollinations.ai/prompt/" ++ pyReplaceSpace p) = _
  rw [pyReplaceSpace, replaceSpaces_eq_bind]

/-- C9 witness: the prompt "neon city" produces the fallback URL with its
space escaped to %20 and all other characters untouched. -/
theorem fallback_url_escape_c9_witness :
    dictGet (GeminiImageAdapter.generate false HttpAttempt.exn "neon city") "image_url" =
      some "https://image.pollinations.ai/prompt/neon%20city" := by
  have h := fallback_url_escape_c9 false HttpAttempt.exn "neon city" rfl
  simpa using h

/-- C10: every mode hint other than "image" and "text" — "auto", any
unrecognized string, or an absent (null) mode — falls through to keyword
classification and behaves exactly like "auto". -/
theorem unknown_hint_auto_c10 :
    ∀ (p : String) (m : Option String),
      m ≠ some "image" → m ≠ some "text" →
      determine_adapter p m = determine_adapter p (some "auto") := by
  intro p m h1 h2
  unfold determine_adapter
  rw [if_neg h1, if_neg h2,
      if_neg (by decide : ¬ (some "auto" : Option String) = some "image"),
      if_neg (by decide : ¬ (some "auto" : Option String) = some "text")]

/-- C10 witness: the unrecognized hint "banana" routes like "auto". -/
theorem unknown_hint_auto_c10_witness :
    determine_adapter "hello" (some "banana") = determine_adapter "hello" (some "auto") :=
  unknown_hint_auto_c10 "hello" (some "banana") (by decide) (by decide)

end MultiModelBot
